import Mathlib

/-!
Verification of the technical-indicator enrichment pipeline
(`DataEnricher/enrich_with_technical_indicators.py`).

Shallow embedding: pandas/yfinance values are rationals, missing entries
(`NaN`) are `Option.none` inside series, an indicator outcome is a tagged
variant (`TAResult`), an exception-throwing computation is an
`Except ε` value, and a CSV file is an optional list of lines
(`none` = the file does not exist).
-/

namespace DataEnricher

/-- A scalar cell of the output: a number or `np.nan` ("unavailable"). -/
inductive Val where
  | num (q : ℚ)
  | unavailable
deriving DecidableEq, Repr

/-- Outcome shape of a pandas_ta indicator invocation: `None`, a
DataFrame (a list of columns, each a list of possibly-missing entries),
a Series (a list of possibly-missing entries), or a bare scalar. -/
inductive TAResult where
  | none
  | dataFrame (cols : List (List (Option ℚ)))
  | series (xs : List (Option ℚ))
  | scalar (q : ℚ)
deriving DecidableEq, Repr

/-- Pandas `DataFrame.empty`: true when the frame holds no element. -/
def dfEmpty (cols : List (List (Option ℚ))) : Bool :=
  cols.all List.isEmpty

/-- Pandas `series.dropna()`: drop the missing entries. -/
def dropna (xs : List (Option ℚ)) : List ℚ :=
  xs.filterMap id

/-- Embedding of `safe_ta_function` (lines 21-48): run the computation, catching any
exception, and normalize to a single value: `None` ↦ NaN; DataFrame ↦
last non-null entry of the first column (NaN if empty / all-null);
Series ↦ last non-null entry (NaN if none); scalar ↦ itself;
an exception of any kind ↦ NaN. -/
def safe_ta_function {ε : Type} (comp : Except ε TAResult) : Val :=
  match comp with
  | .error _ => .unavailable
  | .ok r =>
    match r with
    | .none => .unavailable
    | .dataFrame cols =>
      if dfEmpty cols then .unavailable
      else
        match cols with
        | [] => .unavailable
        | c :: _ =>
          match (dropna c).getLast? with
          | some v => .num v
          | Option.none => .unavailable
    | .series xs =>
      match (dropna xs).getLast? with
      | some v => .num v
      | Option.none => .unavailable
    | .scalar q => .num q

/-- Spec-side reading of "scan backward for the most recent non-missing
entry": walk the reversed sequence and return the first present entry. -/
def lastNonMissing (xs : List (Option ℚ)) : Option ℚ :=
  xs.reverse.findSome? id

/-- One daily OHLCV bar of the fetched price series; `date` is a day
number standing for the DatetimeIndex entry. -/
structure Bar where
  date : ℤ
  open_ : ℚ
  high : ℚ
  low : ℚ
  close : ℚ
  volume : ℚ
deriving DecidableEq, Repr

/-- The frame returned by `yf.download` (after the MultiIndex flatten of
lines 75-77): its column labels and its rows, ascending by date. -/
structure Fetched where
  columns : List String
  bars : List Bar
deriving DecidableEq, Repr

/-- Line 80: the columns the builder requires. -/
def requiredCols : List String := ["Open", "High", "Low", "Close", "Volume"]

/-- Outcome of each indicator computation of Steps 5-6, supplied by the
external analytics library or by direct pandas arithmetic; `Except`
models a computation that may raise. `atr`, `priceDistance`, `obv`,
`adLine`, `pvt`, `vwap` flow through `safe_ta_function`; `stdDev`,
`volCloseMin`, `volCloseMax` are evaluated bare (lines 105, 151-152);
`ulcer` and `forceIndex` sit in their own try/except blocks
(lines 108-117, 132-141). -/
structure IndicatorOutcomes where
  atr : Except Unit TAResult
  stdDev : Except Unit ℚ
  ulcer : Except Unit ℚ
  priceDistance : Except Unit TAResult
  obv : Except Unit TAResult
  adLine : Except Unit TAResult
  pvt : Except Unit TAResult
  forceIndex : Except Unit ℚ
  vwap : Except Unit TAResult
  volCloseMin : Except Unit ℚ
  volCloseMax : Except Unit ℚ
deriving Repr

/-- A computation guarded by its own try/except defaulting to NaN
(the ulcer-index and force-index blocks). -/
def exceptVal (c : Except Unit ℚ) : Val :=
  match c with
  | .ok v => .num v
  | .error _ => .unavailable

/-- The deterministic pandas expression `(High + Low + Close) / 3`
evaluated on the truncated frame (lines 144 and 147): a Series with one
entry per bar, none missing. -/
def hlc3Result (bars : List Bar) : TAResult :=
  .series (bars.map (fun b => some ((b.high + b.low + b.close) / 3)))

/-- The record assembled at lines 165-191. -/
structure IndicatorSnapshot where
  ticker : String
  date : ℤ
  last_open : Val
  last_high : Val
  last_low : Val
  last_close : Val
  last_volume : Val
  atr : Val
  std_dev : Val
  ulcer_index : Val
  price_distance : Val
  obv : Val
  ad_line : Val
  pvt : Val
  force_index : Val
  hlc3 : Val
  typical_price : Val
  vwap : Val
  volume_close_min : Val
  volume_close_max : Val
deriving DecidableEq, Repr

/-- Embedding of `get_indicators_for_date` (lines 50-195). The fetch outcome and
every external/indicator computation outcome are inputs; the body is the
source's control flow: the whole body sits in a try/except returning
`None` (lines 66, 193-195), so an exception in an unguarded computation
(`stdDev`, `volCloseMin`, `volCloseMax`) yields `none` for the whole
request, while guarded ones only blank their own field. -/
def get_indicators_for_date (fetched : Except Unit Fetched)
    (out : IndicatorOutcomes) (ticker : String) (date : ℤ) :
    Option IndicatorSnapshot :=
  match fetched with
  | .error _ => none
  | .ok stock =>
    if stock.bars.isEmpty then none
    else if ¬ (requiredCols.all (fun c => stock.columns.contains c)) then none
    else
      let truncated := stock.bars.filter (fun b => decide (b.date ≤ date))
      if truncated.isEmpty then none
      else if truncated.length < 20 then none
      else
        match out.stdDev with
        | .error _ => none
        | .ok sd =>
          match out.volCloseMin with
          | .error _ => none
          | .ok vmin =>
            match out.volCloseMax with
            | .error _ => none
            | .ok vmax =>
              some
                { ticker := ticker
                  date := date
                  last_open :=
                    match truncated.getLast? with
                    | some b => .num b.open_
                    | none => .unavailable
                  last_high :=
                    match truncated.getLast? with
                    | some b => .num b.high
                    | none => .unavailable
                  last_low :=
                    match truncated.getLast? with
                    | some b => .num b.low
                    | none => .unavailable
                  last_close :=
                    match truncated.getLast? with
                    | some b => .num b.close
                    | none => .unavailable
                  last_volume :=
                    match truncated.getLast? with
                    | some b => .num b.volume
                    | none => .unavailable
                  atr := safe_ta_function out.atr
                  std_dev := .num sd
                  ulcer_index := exceptVal out.ulcer
                  price_distance := safe_ta_function out.priceDistance
                  obv := safe_ta_function out.obv
                  ad_line := safe_ta_function out.adLine
                  pvt := safe_ta_function out.pvt
                  force_index := exceptVal out.forceIndex
                  hlc3 := safe_ta_function (ε := Unit) (.ok (hlc3Result truncated))
                  typical_price := safe_ta_function (ε := Unit) (.ok (hlc3Result truncated))
                  vwap := safe_ta_function out.vwap
                  volume_close_min := .num vmin
                  volume_close_max := .num vmax }

/-- The CSV columns, in the dictionary's insertion order (lines 165-191):
this is the header the first batch establishes. -/
def snapshotFields : List String :=
  ["ticker", "date", "last_open", "last_high", "last_low", "last_close",
   "last_volume", "atr", "std_dev", "ulcer_index", "price_distance", "obv",
   "ad_line", "pvt", "force_index", "hlc3", "typical_price", "vwap",
   "volume_close_min", "volume_close_max"]

/-- One CSV cell: the identification strings/dates or a numeric value. -/
inductive Cell where
  | str (s : String)
  | int (z : ℤ)
  | val (v : Val)
deriving DecidableEq, Repr

/-- One data row of the output table, aligned with `snapshotFields`. -/
def snapshotRow (s : IndicatorSnapshot) : List Cell :=
  [.str s.ticker, .int s.date, .val s.last_open, .val s.last_high,
   .val s.last_low, .val s.last_close, .val s.last_volume, .val s.atr,
   .val s.std_dev, .val s.ulcer_index, .val s.price_distance, .val s.obv,
   .val s.ad_line, .val s.pvt, .val s.force_index, .val s.hlc3,
   .val s.typical_price, .val s.vwap, .val s.volume_close_min,
   .val s.volume_close_max]

/-- One input row of the request table: a ticker and a target date
(`row['ticker']`, `row['time']` after `pd.to_datetime`). -/
structure Req where
  ticker : String
  time : ℤ
deriving DecidableEq, Repr

/-- One line of the output CSV: the header line or one data row. -/
inductive Line where
  | header
  | row (s : IndicatorSnapshot)
deriving DecidableEq, Repr

/-- The destination file: `none` when it does not exist, otherwise its
lines in order. -/
abbrev CSVFile := Option (List Line)

/-- Embedding of `save_indicators_incrementally` (lines 197-216): empty input is a
no-op; `is_first_batch` overwrites with a header line then the rows
(`to_csv(mode='w')`); otherwise rows are appended with no header
(`to_csv(mode='a', header=False)` — which creates the file when it is
missing, as appending does). -/
def save_indicators_incrementally (indicators_data : List IndicatorSnapshot)
    (file : CSVFile) (is_first_batch : Bool) : CSVFile :=
  if indicators_data.isEmpty then file
  else if is_first_batch then
    some (Line.header :: indicators_data.map Line.row)
  else
    some (file.getD [] ++ indicators_data.map Line.row)

/-- Fuel-indexed slicing loop; the fuel starts at the list length, an
upper bound on the number of slices, making the recursion structural. -/
def chunksGo (m : ℕ) : ℕ → List Req → List (List Req)
  | _, [] => []
  | 0, _ :: _ => []
  | fuel + 1, x :: xs =>
    (x :: xs).take (m + 1) :: chunksGo m fuel ((x :: xs).drop (m + 1))

/-- The `range(0, total, batch_size)` slicing (lines 262-264): contiguous
chunks of at most `n` requests. `n = 0` yields no chunks (in the source
`range` with step 0 raises; the driver is only run with positive
`batch_size`). -/
def chunks : ℕ → List Req → List (List Req)
  | _, [] => []
  | 0, _ :: _ => []
  | m + 1, x :: xs => chunksGo m (x :: xs).length (x :: xs)

/-- Accumulated driver state after some batches: the destination file
and the success/failure counters. -/
structure RunResult where
  file : CSVFile
  successes : ℕ
  failures : ℕ
deriving DecidableEq, Repr

/-- The batch loop of lines 262-304: for each batch, build every request
in order, collect the successes, count the failures, and flush the batch
(skipped when it collected nothing, line 296) with
`is_first_batch = (batch_count == 1)` (line 297). `k` is the
`batch_count` of the batch at the head. -/
def runBatchesAux (build : Req → Option IndicatorSnapshot) :
    List (List Req) → ℕ → CSVFile → ℕ → ℕ → RunResult
  | [], _, file, s, f => ⟨file, s, f⟩
  | b :: bs, k, file, s, f =>
    let batch_indicators := b.filterMap build
    let file' :=
      if batch_indicators.isEmpty then file
      else save_indicators_incrementally batch_indicators file (k == 1)
    runBatchesAux build bs (k + 1) file'
      (s + batch_indicators.length)
      (f + b.countP (fun r => (build r).isNone))

/-- Embedding of `enrich_dataset_with_indicators` (lines 218-323), with the Snapshot
Builder abstracted as `build` (in the source, `build r` is
`get_indicators_for_date(r.ticker, r.time)` with that request's fetch and
computation outcomes). The run starts with no destination file (line 248
removes a pre-existing one). -/
def enrich_dataset_with_indicators (build : Req → Option IndicatorSnapshot)
    (reqs : List Req) (batch_size : ℕ) : RunResult :=
  runBatchesAux build (chunks batch_size reqs) 1 none 0 0

/-- Project a file line to its data row, if it is one. -/
def rowOf : Line → Option IndicatorSnapshot
  | .header => none
  | .row s => some s

/-- The data rows of the destination, in file order (header skipped). -/
def fileRows (file : CSVFile) : List IndicatorSnapshot :=
  (file.getD []).filterMap rowOf

/-- A concrete 25-bar series (dates 0..24, constant OHLCV). -/
def sampleBars : List Bar :=
  (List.range 25).map (fun i => ⟨(i : ℤ), 1, 3, 1, 2, 10⟩)

/-- A concrete fetched frame exposing the required columns. -/
def sampleFetched : Fetched := ⟨requiredCols, sampleBars⟩

/-- Concrete, all-successful computation outcomes. -/
def sampleOutcomes : IndicatorOutcomes where
  atr := .ok (.scalar 1)
  stdDev := .ok 1
  ulcer := .ok 0
  priceDistance := .ok (.series [some 2])
  obv := .ok (.scalar 3)
  adLine := .ok (.scalar 4)
  pvt := .ok (.scalar 5)
  forceIndex := .ok 6
  vwap := .ok (.scalar 7)
  volCloseMin := .ok 20
  volCloseMax := .ok 20

/-- A placeholder record (only used as a `getD` default below). -/
def blankSnap : IndicatorSnapshot where
  ticker := ""
  date := 0
  last_open := .unavailable
  last_high := .unavailable
  last_low := .unavailable
  last_close := .unavailable
  last_volume := .unavailable
  atr := .unavailable
  std_dev := .unavailable
  ulcer_index := .unavailable
  price_distance := .unavailable
  obv := .unavailable
  ad_line := .unavailable
  pvt := .unavailable
  force_index := .unavailable
  hlc3 := .unavailable
  typical_price := .unavailable
  vwap := .unavailable
  volume_close_min := .unavailable
  volume_close_max := .unavailable

/-- The snapshot the builder produces on the sample inputs. -/
def builtSnap : IndicatorSnapshot :=
  (get_indicators_for_date (.ok sampleFetched) sampleOutcomes "A" 30).getD blankSnap

/-- The sample outcomes with the (unguarded) rolling-standard-deviation
computation raising. -/
def outcomesStdErr : IndicatorOutcomes := { sampleOutcomes with stdDev := .error () }

/-- A concrete 5-bar frame: too short for the 20-bar floor. -/
def shortFetched : Fetched :=
  ⟨requiredCols, (List.range 5).map (fun i => ⟨(i : ℤ), 1, 3, 1, 2, 10⟩)⟩

/-- A request whose build succeeds on the sample data. -/
def reqA : Req := ⟨"A", 30⟩

/-- A request whose build fails. -/
def reqB : Req := ⟨"B", 30⟩

/-- A concrete builder: ticker "A" succeeds (the sample build), any
other ticker fails. -/
def buildAB : Req → Option IndicatorSnapshot := fun r =>
  if r.ticker = "A" then get_indicators_for_date (.ok sampleFetched) sampleOutcomes "A" 30
  else none

lemma findSome_id_eq_head? (l : List (Option ℚ)) :
    l.findSome? id = (l.filterMap id).head? := by
  induction l with
  | nil => rfl
  | cons x xs ih =>
    cases x with
    | none => exact ih
    | some v => rfl

/-- The source's "dropna then take the last" agrees with the spec's
"scan backward for the most recent non-missing entry". -/
lemma dropna_getLast_eq_lastNonMissing (xs : List (Option ℚ)) :
    (dropna xs).getLast? = lastNonMissing xs := by
  rw [lastNonMissing, findSome_id_eq_head?, dropna, List.filterMap_reverse,
    ← List.getLast?_eq_head?_reverse]

lemma safe_error {ε : Type} (e : ε) :
    safe_ta_function (Except.error e) = Val.unavailable := rfl

lemma safe_series (xs : List (Option ℚ)) :
    safe_ta_function (ε := Unit) (Except.ok (TAResult.series xs)) =
      (match lastNonMissing xs with
       | some v => Val.num v
       | Option.none => Val.unavailable) := by
  rw [safe_ta_function, ← dropna_getLast_eq_lastNonMissing]

lemma safe_dataFrame_cons (c : List (Option ℚ)) (cs : List (List (Option ℚ)))
    (h : dfEmpty (c :: cs) = false) :
    safe_ta_function (ε := Unit) (Except.ok (TAResult.dataFrame (c :: cs))) =
      (match lastNonMissing c with
       | some v => Val.num v
       | Option.none => Val.unavailable) := by
  rw [safe_ta_function, ← dropna_getLast_eq_lastNonMissing]
  simp [h]

lemma chunksGo_nil (m fuel : ℕ) : chunksGo m fuel [] = [] := by
  cases fuel <;> rfl

lemma chunks_nil (n : ℕ) : chunks n [] = [] := by
  cases n <;> rfl

lemma chunksGo_fuel_irrel (m : ℕ) :
    ∀ (fuel₁ fuel₂ : ℕ) (l : List Req), l.length ≤ fuel₁ → l.length ≤ fuel₂ →
      chunksGo m fuel₁ l = chunksGo m fuel₂ l := by
  intro fuel₁
  induction fuel₁ with
  | zero =>
    intro fuel₂ l h₁ h₂
    have : l = [] := List.length_eq_zero.mp (by omega)
    subst this
    cases fuel₂ <;> rfl
  | succ f ih =>
    intro fuel₂ l h₁ h₂
    cases l with
    | nil => cases fuel₂ <;> rfl
    | cons x xs =>
      simp only [List.length_cons] at h₁ h₂
      obtain ⟨f₂, rfl⟩ : ∃ f₂, fuel₂ = f₂ + 1 := ⟨fuel₂ - 1, by omega⟩
      rw [chunksGo, chunksGo]
      rw [ih f₂ ((x :: xs).drop (m + 1)) (by simp; omega) (by simp; omega)]

lemma rowOf_comp_row (data : List IndicatorSnapshot) :
    data.filterMap (rowOf ∘ Line.row) = data := by
  induction data with
  | nil => rfl
  | cons s rest ih => simp [Function.comp, rowOf, ih]

lemma header_notMem_map_row (data : List IndicatorSnapshot) :
    Line.header ∉ data.map Line.row := by
  intro h
  rcases List.mem_map.mp h with ⟨s, -, hs⟩
  exact Line.noConfusion hs

lemma chunks_cons (m : ℕ) (x : Req) (xs : List Req) :
    chunks (m + 1) (x :: xs) =
      (x :: xs).take (m + 1) :: chunks (m + 1) ((x :: xs).drop (m + 1)) := by
  rw [chunks, List.length_cons, chunksGo]
  congr 1
  cases hd : (x :: xs).drop (m + 1) with
  | nil => rw [chunksGo_nil, chunks_nil]
  | cons y ys =>
    rw [chunks]
    have hlen : (y :: ys).length ≤ xs.length := by
      have h := congrArg List.length hd
      simp only [List.length_drop, List.length_cons] at h
      simp only [List.length_cons]
      omega
    exact chunksGo_fuel_irrel m xs.length (y :: ys).length (y :: ys) hlen (le_refl _)

/-- Recombining the contiguous batches gives back the request list. -/
lemma chunks_join (m : ℕ) : ∀ l : List Req, (chunks (m + 1) l).flatten = l
  | [] => by rw [chunks]; rfl
  | x :: xs => by
    rw [chunks_cons, List.flatten_cons, chunks_join m ((x :: xs).drop (m + 1))]
    exact List.take_append_drop _ _
termination_by l => l.length
decreasing_by simp; omega

lemma runBatchesAux_successes (build : Req → Option IndicatorSnapshot) :
    ∀ (bs : List (List Req)) (k : ℕ) (file : CSVFile) (s f : ℕ),
      (runBatchesAux build bs k file s f).successes =
        s + (bs.flatten.filterMap build).length := by
  intro bs
  induction bs with
  | nil => intro k file s f; simp [runBatchesAux]
  | cons b rest ih =>
    intro k file s f
    rw [runBatchesAux, ih]
    simp [Nat.add_assoc]

lemma runBatchesAux_failures (build : Req → Option IndicatorSnapshot) :
    ∀ (bs : List (List Req)) (k : ℕ) (file : CSVFile) (s f : ℕ),
      (runBatchesAux build bs k file s f).failures =
        f + bs.flatten.countP (fun r => (build r).isNone) := by
  intro bs
  induction bs with
  | nil => intro k file s f; simp [runBatchesAux]
  | cons b rest ih =>
    intro k file s f
    rw [runBatchesAux, ih]
    simp [Nat.add_assoc]

/-- From the second batch on (`batch_count ≥ 2`), processing only ever
appends data rows: the file's data rows grow by exactly the successful
builds of the remaining requests. -/
lemma runBatchesAux_fileRows (build : Req → Option IndicatorSnapshot) :
    ∀ (bs : List (List Req)) (k : ℕ) (file : CSVFile) (s f : ℕ), 2 ≤ k →
      fileRows (runBatchesAux build bs k file s f).file =
        fileRows file ++ bs.flatten.filterMap build := by
  intro bs
  induction bs with
  | nil => intro k file s f hk; simp [runBatchesAux]
  | cons b rest ih =>
    intro k file s f hk
    rw [runBatchesAux]
    have hknot : (k == 1) = false := by
      rw [beq_eq_false_iff_ne]
      omega
    by_cases hb : (b.filterMap build).isEmpty
    · rw [if_pos hb, ih (k + 1) file _ _ (by omega)]
      have hb2 : b.filterMap build = [] := List.isEmpty_iff.mp hb
      simp [hb2]
    · rw [if_neg hb, save_indicators_incrementally, if_neg hb, hknot,
        if_neg Bool.false_ne_true, ih (k + 1) _ _ _ (by omega)]
      simp [fileRows, List.filterMap_append, rowOf_comp_row]

/-- From the second batch on, processing an existing file only appends
the rows of the successful builds. -/
lemma runBatchesAux_file_some (build : Req → Option IndicatorSnapshot) :
    ∀ (bs : List (List Req)) (k : ℕ) (l : List Line) (s f : ℕ), 2 ≤ k →
      (runBatchesAux build bs k (some l) s f).file =
        some (l ++ (bs.flatten.filterMap build).map Line.row) := by
  intro bs
  induction bs with
  | nil => intro k l s f hk; simp [runBatchesAux]
  | cons b rest ih =>
    intro k l s f hk
    rw [runBatchesAux]
    have hknot : (k == 1) = false := by
      rw [beq_eq_false_iff_ne]
      omega
    by_cases hb : (b.filterMap build).isEmpty
    · rw [if_pos hb, ih (k + 1) l _ _ (by omega)]
      have hb2 : b.filterMap build = [] := List.isEmpty_iff.mp hb
      simp [hb2]
    · rw [if_neg hb, save_indicators_incrementally, if_neg hb, hknot,
        if_neg Bool.false_ne_true, ih (k + 1) _ _ _ (by omega)]
      simp

/-- From the second batch on, no header line is ever added. -/
lemma runBatchesAux_no_header (build : Req → Option IndicatorSnapshot) :
    ∀ (bs : List (List Req)) (k : ℕ) (file : CSVFile) (s f : ℕ), 2 ≤ k →
      Line.header ∉ file.getD [] →
      Line.header ∉ ((runBatchesAux build bs k file s f).file.getD []) := by
  intro bs
  induction bs with
  | nil => intro k file s f hk hf; simpa [runBatchesAux] using hf
  | cons b rest ih =>
    intro k file s f hk hf
    rw [runBatchesAux]
    have hknot : (k == 1) = false := by
      rw [beq_eq_false_iff_ne]
      omega
    by_cases hb : (b.filterMap build).isEmpty
    · rw [if_pos hb]
      exact ih (k + 1) file _ _ (by omega) hf
    · rw [if_neg hb, save_indicators_incrementally, if_neg hb, hknot,
        if_neg Bool.false_ne_true]
      refine ih (k + 1) _ _ _ (by omega) ?_
      simp only [Option.getD_some, List.mem_append]
      rintro (h | h)
      · exact hf h
      · exact header_notMem_map_row _ h

/-- The output table's data rows are exactly the successful builds, in
input order, for any positive batch size. -/
lemma enrich_fileRows (build : Req → Option IndicatorSnapshot)
    (reqs : List Req) (n : ℕ) (hn : 0 < n) :
    fileRows (enrich_dataset_with_indicators build reqs n).file =
      reqs.filterMap build := by
  obtain ⟨m, rfl⟩ : ∃ m, n = m + 1 := ⟨n - 1, by omega⟩
  rw [enrich_dataset_with_indicators]
  cases hc : chunks (m + 1) reqs with
  | nil =>
    have hreqs : reqs = [] := by
      have h := chunks_join m reqs
      rw [hc] at h
      simpa using h.symm
    subst hreqs
    simp [runBatchesAux, fileRows]
  | cons c cs =>
    have hjoin : c ++ cs.flatten = reqs := by
      have h := chunks_join m reqs
      rw [hc] at h
      simpa [List.flatten_cons] using h
    rw [runBatchesAux]
    by_cases hb : (c.filterMap build).isEmpty
    · rw [if_pos hb, runBatchesAux_fileRows build cs 2 none _ _ (le_refl 2)]
      have hb2 : c.filterMap build = [] := List.isEmpty_iff.mp hb
      rw [← hjoin]
      simp [fileRows, List.filterMap_append, hb2]
    · rw [if_neg hb]
      have h1 : (1 == 1) = true := rfl
      rw [save_indicators_incrementally, if_neg hb, h1, if_pos rfl,
        runBatchesAux_fileRows build cs 2 _ _ _ (le_refl 2), ← hjoin]
      simp [fileRows, List.filterMap_append, rowOf_comp_row, rowOf]

/-- The success counter counts exactly the successful builds. -/
lemma enrich_successes (build : Req → Option IndicatorSnapshot)
    (reqs : List Req) (n : ℕ) (hn : 0 < n) :
    (enrich_dataset_with_indicators build reqs n).successes =
      (reqs.filterMap build).length := by
  obtain ⟨m, rfl⟩ : ∃ m, n = m + 1 := ⟨n - 1, by omega⟩
  rw [enrich_dataset_with_indicators, runBatchesAux_successes, chunks_join]
  simp

/-- The failure counter counts exactly the failed builds. -/
lemma enrich_failures (build : Req → Option IndicatorSnapshot)
    (reqs : List Req) (n : ℕ) (hn : 0 < n) :
    (enrich_dataset_with_indicators build reqs n).failures =
      reqs.countP (fun r => (build r).isNone) := by
  obtain ⟨m, rfl⟩ : ∃ m, n = m + 1 := ⟨n - 1, by omega⟩
  rw [enrich_dataset_with_indicators, runBatchesAux_failures, chunks_join]
  simp

/-- When the first batch has at least one success, the final file is the
header line followed by every successful build's row, in input order. -/
lemma enrich_file_of_first_batch_nonempty (build : Req → Option IndicatorSnapshot)
    (reqs : List Req) (n : ℕ) (hn : 0 < n)
    (hfirst : ((chunks n reqs).headD []).filterMap build ≠ []) :
    (enrich_dataset_with_indicators build reqs n).file =
      some (Line.header :: (reqs.filterMap build).map Line.row) := by
  obtain ⟨m, rfl⟩ : ∃ m, n = m + 1 := ⟨n - 1, by omega⟩
  rw [enrich_dataset_with_indicators]
  cases hc : chunks (m + 1) reqs with
  | nil => rw [hc] at hfirst; simp at hfirst
  | cons c cs =>
    rw [hc] at hfirst
    simp only [List.headD_cons] at hfirst
    have hjoin : c ++ cs.flatten = reqs := by
      have h := chunks_join m reqs
      rw [hc] at h
      simpa [List.flatten_cons] using h
    have hb : (c.filterMap build).isEmpty = false := by
      simpa [List.isEmpty_iff] using hfirst
    rw [runBatchesAux, hb]
    have h1 : (1 == 1) = true := rfl
    rw [if_neg Bool.false_ne_true, save_indicators_incrementally,
      if_neg (by simp [hb]), h1, if_pos rfl,
      runBatchesAux_file_some build cs 2 _ _ _ (le_refl 2), ← hjoin]
    simp [List.filterMap_append]

/-- When the first batch has no success, no header line is ever written,
whatever the later batches do. -/
lemma enrich_no_header_of_first_batch_empty (build : Req → Option IndicatorSnapshot)
    (reqs : List Req) (n : ℕ) (hn : 0 < n)
    (hfirst : ((chunks n reqs).headD []).filterMap build = []) :
    Line.header ∉ ((enrich_dataset_with_indicators build reqs n).file.getD []) := by
  obtain ⟨m, rfl⟩ : ∃ m, n = m + 1 := ⟨n - 1, by omega⟩
  rw [enrich_dataset_with_indicators]
  cases hc : chunks (m + 1) reqs with
  | nil => simp [runBatchesAux]
  | cons c cs =>
    rw [hc] at hfirst
    simp only [List.headD_cons] at hfirst
    rw [runBatchesAux, if_pos (by simp [hfirst])]
    exact runBatchesAux_no_header build cs 2 none _ _ (le_refl 2) (by simp)

lemma sample_build_eq :
    get_indicators_for_date (.ok sampleFetched) sampleOutcomes "A" 30 =
      some builtSnap := rfl

/-- C2: `normalize` (safe_ta_function) returns Unavailable when the
outcome is absent, an empty table, an empty sequence, or a
sequence/first column with no non-missing entry; on a multi-column table
it returns the most recent (last-position) non-missing entry of the
first column; on a single sequence the most recent non-missing entry;
and a bare scalar is returned unchanged. -/
theorem normalize_case_analysis (xs c : List (Option ℚ))
    (cs : List (List (Option ℚ))) (q v : ℚ) :
    safe_ta_function (ε := Unit) (.ok .none) = Val.unavailable
    ∧ safe_ta_function (ε := Unit) (.ok (.dataFrame [])) = Val.unavailable
    ∧ (dfEmpty (c :: cs) = true →
        safe_ta_function (ε := Unit) (.ok (.dataFrame (c :: cs))) = Val.unavailable)
    ∧ safe_ta_function (ε := Unit) (.ok (.series [])) = Val.unavailable
    ∧ (lastNonMissing xs = none →
        safe_ta_function (ε := Unit) (.ok (.series xs)) = Val.unavailable)
    ∧ (lastNonMissing xs = some v →
        safe_ta_function (ε := Unit) (.ok (.series xs)) = Val.num v)
    ∧ (dfEmpty (c :: cs) = false → lastNonMissing c = none →
        safe_ta_function (ε := Unit) (.ok (.dataFrame (c :: cs))) = Val.unavailable)
    ∧ (dfEmpty (c :: cs) = false → lastNonMissing c = some v →
        safe_ta_function (ε := Unit) (.ok (.dataFrame (c :: cs))) = Val.num v)
    ∧ safe_ta_function (ε := Unit) (.ok (.scalar q)) = Val.num q := by
  refine ⟨rfl, rfl, ?_, rfl, ?_, ?_, ?_, ?_, rfl⟩
  · intro h
    simp [safe_ta_function, h]
  · intro h
    rw [safe_series, h]
  · intro h
    rw [safe_series, h]
  · intro h hc
    rw [safe_dataFrame_cons c cs h, hc]
  · intro h hc
    rw [safe_dataFrame_cons c cs h, hc]

/-- C2 witness: the case analysis evaluated at concrete outcomes. -/
theorem normalize_case_analysis_witness :
    safe_ta_function (ε := Unit) (.ok (.series [some 3, none])) = Val.num 3
    ∧ safe_ta_function (ε := Unit)
        (.ok (.dataFrame [[none, some 4], [some 9, some 9]])) = Val.num 4 := by
  refine ⟨?_, ?_⟩
  · exact (normalize_case_analysis [some 3, none] [none, some 4]
      [[some 9, some 9]] 0 3).2.2.2.2.2.1 rfl
  · exact (normalize_case_analysis [some 3, none] [none, some 4]
      [[some 9, some 9]] 0 4).2.2.2.2.2.2.2.1 rfl rfl

/-- C3: an indicator computation that raises an exception of any kind is
caught by the wrapper, which returns Unavailable instead of propagating;
being a Lean function, the wrapper is total on all outcomes. -/
theorem normalize_never_propagates (ε : Type) (e : ε) :
    safe_ta_function (Except.error e) = Val.unavailable :=
  safe_error e

/-- C1: for every request sequence and positive batch size, the number
of data rows written equals the number of successful builds (also equal
to the driver's success counter): batching neither drops nor duplicates
rows. -/
theorem output_rows_eq_successful_builds (build : Req → Option IndicatorSnapshot)
    (reqs : List Req) (n : ℕ) (hn : 0 < n) :
    (fileRows (enrich_dataset_with_indicators build reqs n).file).length
      = (reqs.filterMap build).length
    ∧ (enrich_dataset_with_indicators build reqs n).successes
      = (reqs.filterMap build).length := by
  rw [enrich_fileRows build reqs n hn, enrich_successes build reqs n hn]
  exact ⟨rfl, rfl⟩

/-- C1 witness: 2 requests, batch_size 2, one success ⇒ one output row. -/
theorem output_rows_eq_successful_builds_witness :
    0 < 2
    ∧ ((fileRows (enrich_dataset_with_indicators buildAB [reqB, reqA] 2).file).length
        = ([reqB, reqA].filterMap buildAB).length
      ∧ (enrich_dataset_with_indicators buildAB [reqB, reqA] 2).successes
        = ([reqB, reqA].filterMap buildAB).length) :=
  ⟨by decide, output_rows_eq_successful_builds buildAB [reqB, reqA] 2 (by decide)⟩

/-- C10: the output table's rows appear in exactly the relative order of
their originating requests: the output is the input sequence restricted
to the successful builds. -/
theorem output_preserves_input_order (build : Req → Option IndicatorSnapshot)
    (reqs : List Req) (n : ℕ) (hn : 0 < n) :
    fileRows (enrich_dataset_with_indicators build reqs n).file =
      reqs.filterMap build :=
  enrich_fileRows build reqs n hn

/-- C10 witness: batch_size 1 over a fail-then-succeed sequence. -/
theorem output_preserves_input_order_witness :
    0 < 1
    ∧ fileRows (enrich_dataset_with_indicators buildAB [reqB, reqA] 1).file
      = [reqB, reqA].filterMap buildAB :=
  ⟨by decide, output_preserves_input_order buildAB [reqB, reqA] 1 (by decide)⟩

/-- C7: when the first batch flushes at least one row
(`is_first_batch = true` there), the destination is overwritten with
exactly one header line followed by that batch's rows, every later flush
appends rows with no header, and the final line count is 1 header plus
the total number of rows across all batches. -/
theorem first_flush_header_later_flushes_append (build : Req → Option IndicatorSnapshot)
    (reqs : List Req) (n : ℕ) (hn : 0 < n)
    (hfirst : ((chunks n reqs).headD []).filterMap build ≠ []) :
    (enrich_dataset_with_indicators build reqs n).file
      = some (Line.header :: (reqs.filterMap build).map Line.row)
    ∧ ((enrich_dataset_with_indicators build reqs n).file.getD []).length
      = 1 + (reqs.filterMap build).length := by
  rw [enrich_file_of_first_batch_nonempty build reqs n hn hfirst]
  simp [Nat.add_comm]

/-- C7 witness: succeed-then-fail-then-succeed with batch_size 1 gives
two non-empty flushes and a 1 + 2 line file. -/
theorem first_flush_header_later_flushes_append_witness :
    0 < 1
    ∧ ((chunks 1 [reqA, reqB, reqA]).headD []).filterMap buildAB ≠ []
    ∧ ((enrich_dataset_with_indicators buildAB [reqA, reqB, reqA] 1).file
        = some (Line.header :: ([reqA, reqB, reqA].filterMap buildAB).map Line.row)
      ∧ ((enrich_dataset_with_indicators buildAB [reqA, reqB, reqA] 1).file.getD []).length
        = 1 + ([reqA, reqB, reqA].filterMap buildAB).length) :=
  ⟨by decide, by decide,
   first_flush_header_later_flushes_append buildAB [reqA, reqB, reqA] 1 (by decide)
     (by decide)⟩

/-- C5 counterexample: with batch_size 1 and requests fail-then-succeed,
the first batch has zero successes, yet the second (non-empty) flush
creates the destination file — `to_csv(mode='a')` creates a missing file
— so "the output destination file is never created" is false; the file
holds the row with no header line. -/
theorem file_created_despite_empty_first_batch :
    chunks 1 [reqB, reqA] = [[reqB], [reqA]]
    ∧ buildAB reqB = none
    ∧ (enrich_dataset_with_indicators buildAB [reqB, reqA] 1).file
        = some [Line.row builtSnap] :=
  ⟨rfl, rfl, rfl⟩

/-- C5 amended: when the very first batch produces zero successful
snapshots, no header line is ever written; the destination may still be
created by a later non-empty flush, which appends rows without a header. -/
theorem no_header_when_first_batch_empty (build : Req → Option IndicatorSnapshot)
    (reqs : List Req) (n : ℕ) (hn : 0 < n)
    (hfirst : ((chunks n reqs).headD []).filterMap build = []) :
    Line.header ∉ ((enrich_dataset_with_indicators build reqs n).file.getD []) :=
  enrich_no_header_of_first_batch_empty build reqs n hn hfirst

/-- C5 amended witness: the counterexample run contains no header. -/
theorem no_header_when_first_batch_empty_witness :
    0 < 1
    ∧ ((chunks 1 [reqB, reqA]).headD []).filterMap buildAB = []
    ∧ Line.header ∉ ((enrich_dataset_with_indicators buildAB [reqB, reqA] 1).file.getD []) :=
  ⟨by decide, rfl,
   no_header_when_first_batch_empty buildAB [reqB, reqA] 1 (by decide) rfl⟩

/-- C6: a request whose truncated series has fewer than 20 bars builds
to Unavailable (`None`); in any run containing such a request the
failure counter counts it (it is positive and equals the number of
failed builds) and the output rows are exactly the successful builds, so
no row for the short request is appended. -/
theorem short_series_fails_counted_not_written (stock : Fetched)
    (out : IndicatorOutcomes) (t : String) (d : ℤ)
    (hshort : (stock.bars.filter (fun b => decide (b.date ≤ d))).length < 20)
    (build : Req → Option IndicatorSnapshot) (reqs : List Req) (n : ℕ) (r : Req)
    (hn : 0 < n) (hr : r ∈ reqs)
    (hb : build r = get_indicators_for_date (.ok stock) out t d) :
    get_indicators_for_date (.ok stock) out t d = none
    ∧ 0 < (enrich_dataset_with_indicators build reqs n).failures
    ∧ (enrich_dataset_with_indicators build reqs n).failures
        = reqs.countP (fun q => (build q).isNone)
    ∧ fileRows (enrich_dataset_with_indicators build reqs n).file
        = reqs.filterMap build := by
  have hnone : get_indicators_for_date (.ok stock) out t d = none := by
    simp only [get_indicators_for_date]
    split_ifs <;> rfl
  refine ⟨hnone, ?_, enrich_failures build reqs n hn, enrich_fileRows build reqs n hn⟩
  rw [enrich_failures build reqs n hn]
  refine List.countP_pos_iff.mpr ⟨r, hr, ?_⟩
  rw [hb, hnone]
  rfl

/-- C6 witness: a concrete 5-bar series in a 1-request run. -/
theorem short_series_fails_counted_not_written_witness :
    (shortFetched.bars.filter (fun b => decide (b.date ≤ (30 : ℤ)))).length < 20
    ∧ 0 < 1
    ∧ reqB ∈ [reqB]
    ∧ (get_indicators_for_date (.ok shortFetched) sampleOutcomes "B" 30 = none
      ∧ 0 < (enrich_dataset_with_indicators
          (fun _ => get_indicators_for_date (.ok shortFetched) sampleOutcomes "B" 30)
          [reqB] 1).failures
      ∧ (enrich_dataset_with_indicators
          (fun _ => get_indicators_for_date (.ok shortFetched) sampleOutcomes "B" 30)
          [reqB] 1).failures
        = [reqB].countP (fun q =>
            ((fun _ => get_indicators_for_date (.ok shortFetched) sampleOutcomes "B" 30) q).isNone)
      ∧ fileRows (enrich_dataset_with_indicators
          (fun _ => get_indicators_for_date (.ok shortFetched) sampleOutcomes "B" 30)
          [reqB] 1).file
        = [reqB].filterMap
            (fun _ => get_indicators_for_date (.ok shortFetched) sampleOutcomes "B" 30)) :=
  ⟨by decide, by decide, by decide,
   short_series_fails_counted_not_written shortFetched sampleOutcomes "B" 30 (by decide)
     (fun _ => get_indicators_for_date (.ok shortFetched) sampleOutcomes "B" 30)
     [reqB] 1 reqB (by decide) (by decide) rfl⟩

/-- C4 counterexample: a validated 25-bar series on which only the
(unguarded, line 105) rolling-standard-deviation computation raises
makes the whole build return Unavailable (`None`) — the top-level
except of lines 193-195 catches it, so the failure is not isolated to
the `std_dev` field — while the same series with that computation
succeeding builds a snapshot. -/
theorem stddev_error_fails_whole_build :
    get_indicators_for_date (.ok sampleFetched) outcomesStdErr "A" 30 = none
    ∧ (get_indicators_for_date (.ok sampleFetched) sampleOutcomes "A" 30).isSome = true :=
  ⟨rfl, rfl⟩

/-- C4 amended: on a validated series, a failure of any computation
invoked through `safe_ta_function` or guarded by its own try/except
(ulcer index, force index) only sets that field to Unavailable and the
snapshot is still produced; but a failure of an unguarded derived
computation — the rolling standard deviation or the 20-bar rolling
min/max of volume × close — makes the whole build return Unavailable. -/
theorem builder_failure_isolation (stock : Fetched) (out out2 : IndicatorOutcomes)
    (t : String) (d : ℤ) (sd vmin vmax : ℚ)
    (hcols : requiredCols.all (fun c => stock.columns.contains c) = true)
    (hlen : 20 ≤ (stock.bars.filter (fun b => decide (b.date ≤ d))).length)
    (hsd : out.stdDev = .ok sd) (hmin : out.volCloseMin = .ok vmin)
    (hmax : out.volCloseMax = .ok vmax)
    (h2 : out2.stdDev = .error () ∨ out2.volCloseMin = .error ()
      ∨ out2.volCloseMax = .error ()) :
    (∃ snap, get_indicators_for_date (.ok stock) out t d = some snap
      ∧ snap.atr = safe_ta_function out.atr
      ∧ snap.price_distance = safe_ta_function out.priceDistance
      ∧ snap.obv = safe_ta_function out.obv
      ∧ snap.ad_line = safe_ta_function out.adLine
      ∧ snap.pvt = safe_ta_function out.pvt
      ∧ snap.vwap = safe_ta_function out.vwap
      ∧ snap.ulcer_index = exceptVal out.ulcer
      ∧ snap.force_index = exceptVal out.forceIndex
      ∧ snap.std_dev = Val.num sd)
    ∧ get_indicators_for_date (.ok stock) out2 t d = none := by
  have hfne : stock.bars.filter (fun b => decide (b.date ≤ d)) ≠ [] := by
    intro h
    rw [h] at hlen
    simp at hlen
  have hbne : stock.bars ≠ [] := by
    intro h
    rw [h] at hfne
    exact hfne rfl
  constructor
  · simp only [get_indicators_for_date]
    rw [if_neg (by simpa [List.isEmpty_eq_false] using hbne),
      if_neg (not_not_intro hcols),
      if_neg (by simpa [List.isEmpty_eq_false] using hfne),
      if_neg (by omega), hsd, hmin, hmax]
    exact ⟨_, rfl, rfl, rfl, rfl, rfl, rfl, rfl, rfl, rfl, rfl⟩
  · rcases h2 with h | h | h
    · simp only [get_indicators_for_date]
      split_ifs <;> try rfl
      rw [h]
    · simp only [get_indicators_for_date]
      split_ifs <;> try rfl
      cases hs : out2.stdDev with
      | error e => rfl
      | ok v => rw [h]
    · simp only [get_indicators_for_date]
      split_ifs <;> try rfl
      cases hs : out2.stdDev with
      | error e => rfl
      | ok v =>
        cases hm : out2.volCloseMin with
        | error e => rfl
        | ok w => rw [h]

/-- C4 amended witness: the sample series with all-ok outcomes versus
the same series with a raising standard-deviation computation. -/
theorem builder_failure_isolation_witness :
    requiredCols.all (fun c => sampleFetched.columns.contains c) = true
    ∧ 20 ≤ (sampleFetched.bars.filter (fun b => decide (b.date ≤ (30 : ℤ)))).length
    ∧ sampleOutcomes.stdDev = .ok 1
    ∧ sampleOutcomes.volCloseMin = .ok 20
    ∧ sampleOutcomes.volCloseMax = .ok 20
    ∧ outcomesStdErr.stdDev = .error ()
    ∧ ((∃ snap, get_indicators_for_date (.ok sampleFetched) sampleOutcomes "A" 30 = some snap
        ∧ snap.atr = safe_ta_function sampleOutcomes.atr
        ∧ snap.price_distance = safe_ta_function sampleOutcomes.priceDistance
        ∧ snap.obv = safe_ta_function sampleOutcomes.obv
        ∧ snap.ad_line = safe_ta_function sampleOutcomes.adLine
        ∧ snap.pvt = safe_ta_function sampleOutcomes.pvt
        ∧ snap.vwap = safe_ta_function sampleOutcomes.vwap
        ∧ snap.ulcer_index = exceptVal sampleOutcomes.ulcer
        ∧ snap.force_index = exceptVal sampleOutcomes.forceIndex
        ∧ snap.std_dev = Val.num 1)
      ∧ get_indicators_for_date (.ok sampleFetched) outcomesStdErr "A" 30 = none) :=
  ⟨by decide, by decide, rfl, rfl, rfl, rfl,
   builder_failure_isolation sampleFetched sampleOutcomes outcomesStdErr "A" 30 1 20 20
     (by decide) (by decide) rfl rfl rfl (Or.inl rfl)⟩

/-- C8: whenever the builder returns a snapshot, the truncated series
passed the 20-bar floor, so it is non-empty, the per-field empty-series
fallback is unreachable, and the last-bar OHLCV fields hold exactly the
last bar's values. -/
theorem last_ohlcv_fallback_unreachable (stock : Fetched) (out : IndicatorOutcomes)
    (t : String) (d : ℤ) (snap : IndicatorSnapshot)
    (h : get_indicators_for_date (.ok stock) out t d = some snap) :
    20 ≤ (stock.bars.filter (fun b => decide (b.date ≤ d))).length
    ∧ ∃ b, (stock.bars.filter (fun b => decide (b.date ≤ d))).getLast? = some b
      ∧ snap.last_open = .num b.open_
      ∧ snap.last_high = .num b.high
      ∧ snap.last_low = .num b.low
      ∧ snap.last_close = .num b.close
      ∧ snap.last_volume = .num b.volume := by
  simp only [get_indicators_for_date] at h
  split_ifs at h with h1 h2 h3 h4
  cases hs : out.stdDev with
  | error e => rw [hs] at h; exact Option.noConfusion h
  | ok sd =>
  rw [hs] at h
  cases hm : out.volCloseMin with
  | error e => rw [hm] at h; exact Option.noConfusion h
  | ok vmin =>
  rw [hm] at h
  cases hx : out.volCloseMax with
  | error e => rw [hx] at h; exact Option.noConfusion h
  | ok vmax =>
  rw [hx] at h
  refine ⟨by omega, ?_⟩
  cases hb : (stock.bars.filter (fun b => decide (b.date ≤ d))).getLast? with
  | none =>
    have : stock.bars.filter (fun b => decide (b.date ≤ d)) = [] :=
      List.getLast?_eq_none_iff.mp hb
    rw [this] at h4
    simp at h4
  | some b =>
    refine ⟨b, rfl, ?_, ?_, ?_, ?_, ?_⟩ <;>
      (rw [← Option.some_inj.mp h, hb])

/-- C8 witness: the sample 25-bar build. -/
theorem last_ohlcv_fallback_unreachable_witness :
    get_indicators_for_date (.ok sampleFetched) sampleOutcomes "A" 30 = some builtSnap
    ∧ (20 ≤ (sampleFetched.bars.filter (fun b => decide (b.date ≤ (30 : ℤ)))).length
      ∧ ∃ b, (sampleFetched.bars.filter (fun b => decide (b.date ≤ (30 : ℤ)))).getLast? = some b
        ∧ builtSnap.last_open = .num b.open_
        ∧ builtSnap.last_high = .num b.high
        ∧ builtSnap.last_low = .num b.low
        ∧ builtSnap.last_close = .num b.close
        ∧ builtSnap.last_volume = .num b.volume) :=
  ⟨sample_build_eq,
   last_ohlcv_fallback_unreachable sampleFetched sampleOutcomes "A" 30 builtSnap
     sample_build_eq⟩

/-- C9: every successfully built snapshot carries `hlc3` and
`typical_price` as two distinct output columns (positions 15 and 16 of
the header) holding identical values — both are the normalized
`(high + low + close) / 3` of the truncated series. -/
theorem hlc3_typical_price_duplicate (fetched : Except Unit Fetched)
    (out : IndicatorOutcomes) (t : String) (d : ℤ) (snap : IndicatorSnapshot)
    (h : get_indicators_for_date fetched out t d = some snap) :
    "hlc3" ∈ snapshotFields
    ∧ "typical_price" ∈ snapshotFields
    ∧ ("hlc3" : String) ≠ "typical_price"
    ∧ snapshotFields[15]? = some "hlc3"
    ∧ snapshotFields[16]? = some "typical_price"
    ∧ (snapshotRow snap)[15]? = some (.val snap.hlc3)
    ∧ (snapshotRow snap)[16]? = some (.val snap.typical_price)
    ∧ snap.hlc3 = snap.typical_price := by
  refine ⟨by decide, by decide, by decide, rfl, rfl, rfl, rfl, ?_⟩
  cases fetched with
  | error e => exact Option.noConfusion h
  | ok stock =>
  simp only [get_indicators_for_date] at h
  split_ifs at h
  cases hs : out.stdDev with
  | error e => rw [hs] at h; exact Option.noConfusion h
  | ok sd =>
  rw [hs] at h
  cases hm : out.volCloseMin with
  | error e => rw [hm] at h; exact Option.noConfusion h
  | ok vmin =>
  rw [hm] at h
  cases hx : out.volCloseMax with
  | error e => rw [hx] at h; exact Option.noConfusion h
  | ok vmax =>
  rw [hx] at h
  rw [← Option.some_inj.mp h]

/-- C9 witness: the sample build. -/
theorem hlc3_typical_price_duplicate_witness :
    get_indicators_for_date (.ok sampleFetched) sampleOutcomes "A" 30 = some builtSnap
    ∧ ("hlc3" ∈ snapshotFields
      ∧ "typical_price" ∈ snapshotFields
      ∧ ("hlc3" : String) ≠ "typical_price"
      ∧ snapshotFields[15]? = some "hlc3"
      ∧ snapshotFields[16]? = some "typical_price"
      ∧ (snapshotRow builtSnap)[15]? = some (.val builtSnap.hlc3)
      ∧ (snapshotRow builtSnap)[16]? = some (.val builtSnap.typical_price)
      ∧ builtSnap.hlc3 = builtSnap.typical_price) :=
  ⟨sample_build_eq,
   hlc3_typical_price_duplicate (.ok sampleFetched) sampleOutcomes "A" 30 builtSnap
     sample_build_eq⟩

end DataEnricher

